import Mathlib

/-!
Verification of the static website optimizer analyzer.

The analyzer (analyzer.js) evaluates a parsed HTML document and returns a
list of issue records, produced by four checker functions: checkSEO,
checkAccessibility, checkStructure, checkPerformance.  runAudit (app.js)
concatenates the four outputs in that fixed order.

We embed the document tree shallowly: a node is an element (tag name,
attribute list, child list) or an entity-decoded text node; a document is
its list of root nodes.  querySelectorAll is a preorder filter over the
forest; textContent concatenates the text of a subtree.
-/

set_option maxHeartbeats 1000000

/-- A node of the parsed document tree: an element with tag name, attributes
and children, or a text node (already entity-decoded, as textContent is). -/
inductive Node where
  | elem (tag : String) (attrs : List (String × String)) (children : List Node)
  | text (s : String)
deriving Repr

/-- A document is the list of its root nodes in document order. -/
abbrev Doc := List Node

/-- Tag name of a node (empty for text nodes). -/
def tagOf : Node → String
  | .elem t _ _ => t
  | .text _ => ""

/-- Attribute list of a node. -/
def attrsOf : Node → List (String × String)
  | .elem _ a _ => a
  | .text _ => []

/-- Child list of a node. -/
def childrenOf : Node → List Node
  | .elem _ _ c => c
  | .text _ => []

/-- getAttribute: first attribute with the given name, if any. -/
def attrOf (n : Node) (name : String) : Option String :=
  ((attrsOf n).find? (fun a => a.fst == name)).map (fun a => a.snd)

/-- hasAttribute: presence only, an empty value still counts as present. -/
def hasAttr (n : Node) (name : String) : Bool := (attrOf n name).isSome

mutual

/-- Element nodes of a subtree (the node itself included) matching the
predicate, in preorder. -/
def collectNode (p : Node → Bool) : Node → List Node
  | .text _ => []
  | .elem t a c => (if p (.elem t a c) then [Node.elem t a c] else []) ++ collect p c

/-- All element nodes of a forest matching the predicate, in flat document
(preorder) order: the querySelectorAll capability of the document adapter. -/
def collect (p : Node → Bool) : List Node → List Node
  | [] => []
  | n :: rest => collectNode p n ++ collect p rest

end

mutual

/-- Text content of a single subtree. -/
def textContentN : Node → String
  | .text s => s
  | .elem _ _ c => textContentL c

/-- Concatenated text content of a forest, in document order. -/
def textContentL : List Node → String
  | [] => ""
  | n :: rest => textContentN n ++ textContentL rest

end

/-- textContent of a node. -/
def Node.textContent (n : Node) : String := textContentN n

/-- querySelector: first match in document order. -/
def querySelector (p : Node → Bool) (d : Doc) : Option Node := (collect p d).head?

/-- querySelectorAll over a whole document. -/
def querySelectorAll (p : Node → Bool) (d : Doc) : List Node := collect p d

/-- Selector `t` (tag name equality). -/
def isTag (t : String) (n : Node) : Bool := tagOf n == t

/-- Selector `meta[name=v]`. -/
def isMetaNamed (v : String) (n : Node) : Bool :=
  tagOf n == "meta" && attrOf n "name" == some v

/-- Selector `link[rel=canonical]`. -/
def isCanonicalLink (n : Node) : Bool :=
  tagOf n == "link" && attrOf n "rel" == some "canonical"

/-- The heading tag names, matching the selector `h1, h2, h3, h4, h5, h6`. -/
def headingTags : List String := ["h1", "h2", "h3", "h4", "h5", "h6"]

/-- A node is a heading element. -/
def isHeading (n : Node) : Bool := headingTags.contains (tagOf n)

/-- Selector `[style]`. -/
def hasStyleAttr (n : Node) : Bool := hasAttr n "style"

/-- Selector `script:not([src])`. -/
def isInlineScript (n : Node) : Bool := tagOf n == "script" && !hasAttr n "src"

/-- Selector `script[src]`. -/
def isSrcScript (n : Node) : Bool := tagOf n == "script" && hasAttr n "src"

/-- doc.head: the first head element of the document, if any. -/
def headOf (d : Doc) : Option Node := querySelector (isTag "head") d

/-- JavaScript `s || fallback` on strings: the empty string is falsy. -/
def jsOr (s fallback : String) : String := if s == "" then fallback else s

/-- Whitespace as stripped by JavaScript String.prototype.trim. -/
def isWsChar (c : Char) : Bool :=
  c == ' ' || c == '\t' || c == '\n' || c == '\r' || c == '\x0b' || c == '\x0c'

/-- Strip whitespace from both ends of a character list. -/
def trimChars (l : List Char) : List Char :=
  ((l.dropWhile isWsChar).reverse.dropWhile isWsChar).reverse

/-- String.prototype.trim. -/
def jsTrim (s : String) : String := ⟨trimChars s.data⟩

/-- Lowercase a single ASCII character (String.prototype.toLowerCase). -/
def lowerChar (c : Char) : Char :=
  if 65 ≤ c.toNat && c.toNat ≤ 90 then Char.ofNat (c.toNat + 32) else c

/-- String.prototype.toLowerCase. -/
def jsToLower (s : String) : String := ⟨s.data.map lowerChar⟩

/-- The issue record emitted by the checkers. -/
structure Issue where
  category : String
  severity : String
  title : String
  description : String
  suggestion : String
deriving Repr, DecidableEq

def missingTitleIssue : Issue :=
  ⟨"SEO", "error", "Missing <title> tag",
   "The document does not have a <title> element.",
   "Add a <title> element to the <head> section."⟩

def titleTooShortIssue (n : Nat) : Issue :=
  ⟨"SEO", "warning", "Title too short",
   s!"Title is only {n} characters long.",
   "Expand your title to be descriptive (aim for 30-60 characters)."⟩

def titleTooLongIssue (n : Nat) : Issue :=
  ⟨"SEO", "warning", "Title too long",
   s!"Title is {n} characters long.",
   "Shorten your title to ensure it displays fully in search results (max ~60-70 chars)."⟩

def missingDescriptionIssue : Issue :=
  ⟨"SEO", "error", "Missing Meta Description",
   "No <meta name=\"description\"> tag found.",
   "Add a meta description to summarize your page for search engines."⟩

def missingViewportIssue : Issue :=
  ⟨"SEO", "error", "Missing Viewport Meta Tag",
   "No <meta name=\"viewport\"> tag found.",
   "Add <meta name=\"viewport\" content=\"width=device-width, initial-scale=1.0\"> for mobile responsiveness."⟩

/-- checkSEO from analyzer.js: title presence and length, meta description
presence, viewport presence; the canonical link is looked up but unused. -/
def checkSEO (d : Doc) : List Issue :=
  let title := querySelector (isTag "title") d
  let description := querySelector (isMetaNamed "description") d
  let viewport := querySelector (isMetaNamed "viewport") d
  let _canonical := querySelector isCanonicalLink d
  let titleIssues :=
    match title with
    | none => [missingTitleIssue]
    | some t =>
        let titleText := jsOr (jsTrim t.textContent) ""
        if titleText.length < 10 then [titleTooShortIssue titleText.length]
        else if titleText.length > 70 then [titleTooLongIssue titleText.length]
        else []
  let descriptionIssues := if description.isNone then [missingDescriptionIssue] else []
  let viewportIssues := if viewport.isNone then [missingViewportIssue] else []
  titleIssues ++ descriptionIssues ++ viewportIssues

def imagesMissingAltIssue (n : Nat) : Issue :=
  ⟨"Accessibility", "error", "Images missing Alt text",
   s!"Found {n} <img> tag(s) without an alt attribute.",
   "Add descriptive alt attributes to all images for screen readers."⟩

def genericLinkTextIssue (n : Nat) : Issue :=
  ⟨"Accessibility", "warning", "Non-descriptive Link Text",
   s!"Found {n} link(s) satisfying generic text like \"click here\".",
   "Use descriptive text for links that explains their destination (e.g., \"Read more about pricing\")."⟩

def noLandmarksIssue : Issue :=
  ⟨"Accessibility", "info", "No Semantic Landmarks Found",
   "Document does not use <main>, <nav>, <header>, or <footer>.",
   "Use semantic HTML5 landmark elements to improve navigation for screen readers."⟩

/-- The generic link texts flagged by checkAccessibility. -/
def genericTerms : List String := ["click here", "read more", "more", "link", "here"]

/-- The semantic landmark tags checked by checkAccessibility. -/
def landmarkTags : List String := ["main", "nav", "header", "footer", "aside"]

/-- checkAccessibility from analyzer.js: image alt coverage, generic link
text, semantic landmarks. -/
def checkAccessibility (d : Doc) : List Issue :=
  let images := querySelectorAll (isTag "img") d
  let missingAltCount := (images.filter (fun img => !hasAttr img "alt")).length
  let altIssues := if missingAltCount > 0 then [imagesMissingAltIssue missingAltCount] else []
  let links := querySelectorAll (isTag "a") d
  let genericLinkCount :=
    (links.filter (fun l => genericTerms.contains (jsToLower (jsTrim l.textContent)))).length
  let linkIssues := if genericLinkCount > 0 then [genericLinkTextIssue genericLinkCount] else []
  let foundLandmarks := landmarkTags.filter (fun t => (querySelector (isTag t) d).isSome)
  let landmarkIssues := if foundLandmarks.length == 0 then [noLandmarksIssue] else []
  altIssues ++ linkIssues ++ landmarkIssues

def missingH1Issue : Issue :=
  ⟨"Structure", "error", "Missing H1 Heading",
   "No <h1> tag found on the page.",
   "Add exactly one <h1> tag to describe the main topic of the page."⟩

def multipleH1Issue (n : Nat) : Issue :=
  ⟨"Structure", "warning", "Multiple H1 Headings",
   s!"Found {n} <h1> tags.",
   "Best practice is to have only one <h1> per page representing the main title."⟩

def skippedHeadingIssue : Issue :=
  ⟨"Structure", "warning", "Skipped Heading Levels",
   "Heading levels should not be skipped (e.g., going from H2 to H4).",
   "Ensure your heading hierarchy is sequential (e.g., H2 → H3)."⟩

def inlineStyleIssue (n : Nat) : Issue :=
  ⟨"Structure", "info", "Heavy use of Inline Styles",
   s!"Found {n} elements with inline \x27style\x27 attributes.",
   "Move styles to valid CSS classes or an external stylesheet for better maintainability."⟩

/-- Value accumulated from a list of decimal digit characters. -/
def digitsVal : List Char → Nat → Nat
  | [], acc => acc
  | c :: rest, acc => digitsVal rest (acc * 10 + (c.toNat - 48))

/-- parseInt on a character list: reads the leading decimal digits. -/
def parseLeadingInt (l : List Char) : Option Nat :=
  match l.takeWhile Char.isDigit with
  | [] => none
  | ds => some (digitsVal ds 0)

/-- parseInt(heading.tagName.substring(1)): numeric level of a heading tag. -/
def headingLevel (n : Node) : Nat := (parseLeadingInt ((tagOf n).data.drop 1)).getD 0

/-- The linear heading scan of checkStructure: previousLevel starts at 0; the
first heading whose level exceeds previousLevel + 1 flags a skip and stops. -/
def scanHeadings : List Node → Nat → Bool
  | [], _ => false
  | h :: rest, previousLevel =>
      let currentLevel := headingLevel h
      if currentLevel > previousLevel + 1 then true
      else scanHeadings rest currentLevel

/-- checkStructure from analyzer.js: h1 count, skipped heading levels, inline
style density. -/
def checkStructure (d : Doc) : List Issue :=
  let h1s := querySelectorAll (isTag "h1") d
  let h1Issues :=
    if h1s.length == 0 then [missingH1Issue]
    else if h1s.length > 1 then [multipleH1Issue h1s.length]
    else []
  let allHeadings := querySelectorAll isHeading d
  let skippedLevels := scanHeadings allHeadings 0
  let skipIssues := if skippedLevels then [skippedHeadingIssue] else []
  let elementsWithStyle := querySelectorAll hasStyleAttr d
  let styleIssues :=
    if elementsWithStyle.length > 10 then [inlineStyleIssue elementsWithStyle.length] else []
  h1Issues ++ skipIssues ++ styleIssues

def highImageCountIssue (n : Nat) : Issue :=
  ⟨"Performance", "warning", "High Image Count",
   s!"Page contains {n} images.",
   "Lazy load images and consider if all are necessary for the initial view."⟩

def largeInlineScriptsIssue (n : Nat) : Issue :=
  ⟨"Performance", "info", "Large Inline Scripts",
   s!"Found {n} large inline script block(s).",
   "Move large JavaScript logic to external .js files to take advantage of browser caching."⟩

def renderBlockingIssue (n : Nat) : Issue :=
  ⟨"Performance", "warning", "Render-blocking Scripts",
   s!"Found {n} script(s) in <head> that are not async or defer.",
   "Add \"defer\" or \"async\" attributes to scripts in the <head> to prevent blocking page render."⟩

/-- checkPerformance from analyzer.js: image volume, large inline scripts,
render-blocking scripts inside head (doc.head ? ... : []). -/
def checkPerformance (d : Doc) : List Issue :=
  let images := querySelectorAll (isTag "img") d
  let imageIssues := if images.length > 30 then [highImageCountIssue images.length] else []
  let scripts := querySelectorAll isInlineScript d
  let largeScripts := (scripts.filter (fun s => s.textContent.length > 2000)).length
  let largeIssues := if largeScripts > 0 then [largeInlineScriptsIssue largeScripts] else []
  let headScripts :=
    match headOf d with
    | some h => collect isSrcScript (childrenOf h)
    | none => []
  let blockingScripts :=
    (headScripts.filter (fun s => !hasAttr s "async" && !hasAttr s "defer")).length
  let blockingIssues := if blockingScripts > 0 then [renderBlockingIssue blockingScripts] else []
  imageIssues ++ largeIssues ++ blockingIssues

/-- runAudit (app.js) compiles the result as the concatenation of the four
checker outputs, in SEO, Accessibility, Structure, Performance order. -/
def analyze (d : Doc) : List Issue :=
  checkSEO d ++ checkAccessibility d ++ checkStructure d ++ checkPerformance d

/-- Number of issues in a list carrying a given title. -/
def countTitled (t : String) (issues : List Issue) : Nat :=
  (issues.filter (fun i => i.title == t)).length

/-- A bare heading element of the given tag. -/
def hEl (t : String) : Node := .elem t [] []

/-- The minimal document html > head, body. -/
def docMinimal : Doc := [.elem "html" [] [.elem "head" [] [], .elem "body" [] []]]

example : analyze docMinimal =
    [missingTitleIssue, missingDescriptionIssue, missingViewportIssue,
     noLandmarksIssue, missingH1Issue] := by rfl

example : countTitled "Skipped Heading Levels" (checkStructure [hEl "h1", hEl "h2", hEl "h4"]) = 1 := by rfl

example : countTitled "Skipped Heading Levels" (checkStructure [hEl "h1", hEl "h2", hEl "h3"]) = 0 := by rfl

theorem countTitled_append (t : String) (a b : List Issue) :
    countTitled t (a ++ b) = countTitled t a + countTitled t b := by
  simp [countTitled]

/-- The linear heading scan flags a skip exactly when the level sequence,
read after the baseline previous level, fails to be a chain in which each
level exceeds its predecessor by at most one. -/
theorem scanHeadings_iff_not_chain (l : List Node) :
    ∀ prev : Nat, scanHeadings l prev = true ↔
      ¬ List.Chain (fun a b => b ≤ a + 1) prev (l.map headingLevel) := by
  induction l with
  | nil => intro prev; simp [scanHeadings]
  | cons h rest ih =>
      intro prev
      simp only [scanHeadings, List.map_cons, List.chain_cons]
      by_cases hgt : headingLevel h > prev + 1
      · simp only [if_pos hgt, true_iff]
        intro hcontra
        omega
      · have hle : headingLevel h ≤ prev + 1 := by omega
        simp [if_neg hgt, ih (headingLevel h), hle]

theorem checkStructure_skip_count (d : Doc) :
    countTitled "Skipped Heading Levels" (checkStructure d)
      = if scanHeadings (querySelectorAll isHeading d) 0 then 1 else 0 := by
  by_cases hs : scanHeadings (querySelectorAll isHeading d) 0 <;>
  by_cases h0 : ((querySelectorAll (isTag "h1") d).length == 0) <;>
  by_cases h1 : (querySelectorAll (isTag "h1") d).length > 1 <;>
  by_cases hst : (querySelectorAll hasStyleAttr d).length > 10 <;>
  simp [checkStructure, countTitled, h0, h1, hst, hs,
    missingH1Issue, multipleH1Issue, skippedHeadingIssue, inlineStyleIssue]

/-- C1: checkStructure scans all headings h1..h6 in flat document order with
previousLevel starting at 0, flags a skip the first time a heading level
exceeds the previous one by more than 1 (equivalently: the level sequence
prefixed by 0 is not a chain of steps of at most +1), emits exactly one
Skipped Heading Levels warning iff a skip was flagged and never more than
one; [h1,h2,h4], a document starting at h3, and [h2,h4] each warn while
[h1,h2,h3] does not. -/
theorem C1_heading_skip_detection :
    (∀ d : Doc,
      countTitled "Skipped Heading Levels" (checkStructure d) ≤ 1
      ∧ (countTitled "Skipped Heading Levels" (checkStructure d) = 1 ↔
          ¬ List.Chain (fun a b => b ≤ a + 1) 0 ((querySelectorAll isHeading d).map headingLevel))
      ∧ (countTitled "Skipped Heading Levels" (checkStructure d) = 0 ↔
          List.Chain (fun a b => b ≤ a + 1) 0 ((querySelectorAll isHeading d).map headingLevel)))
    ∧ countTitled "Skipped Heading Levels" (checkStructure [hEl "h1", hEl "h2", hEl "h4"]) = 1
    ∧ countTitled "Skipped Heading Levels" (checkStructure [hEl "h1", hEl "h2", hEl "h3"]) = 0
    ∧ countTitled "Skipped Heading Levels" (checkStructure [hEl "h3"]) = 1
    ∧ countTitled "Skipped Heading Levels" (checkStructure [hEl "h2", hEl "h4"]) = 1 := by
  refine ⟨fun d => ?_, by rfl, by rfl, by rfl, by rfl⟩
  rw [checkStructure_skip_count d]
  by_cases hs : scanHeadings (querySelectorAll isHeading d) 0
  · have hnc := (scanHeadings_iff_not_chain (querySelectorAll isHeading d) 0).mp hs
    simp [hs, hnc]
  · have hc : List.Chain (fun a b => b ≤ a + 1) 0 ((querySelectorAll isHeading d).map headingLevel) := by
      by_contra hnc
      exact hs ((scanHeadings_iff_not_chain (querySelectorAll isHeading d) 0).mpr hnc)
    simp [hs, hc]

/-- C4: checkStructure maps the number of h1 elements deterministically: zero
h1 elements yield exactly the Missing H1 Heading error and no Multiple H1
warning; exactly one h1 yields neither; more than one yields exactly the
Multiple H1 Headings warning, whose description interpolates the count. -/
theorem C4_h1_count_mapping :
    ∀ d : Doc,
      let n := (querySelectorAll (isTag "h1") d).length
      ((checkStructure d).filter (fun i => i.title == "Missing H1 Heading")
          = if n = 0 then [missingH1Issue] else [])
      ∧ ((checkStructure d).filter (fun i => i.title == "Multiple H1 Headings")
          = if n > 1 then [multipleH1Issue n] else [])
      ∧ (multipleH1Issue n).description = s!"Found {n} <h1> tags." := by
  intro d n
  have hn : (querySelectorAll (isTag "h1") d).length = n := rfl
  refine ⟨?_, ?_, rfl⟩ <;>
  · by_cases h0 : n = 0 <;>
    by_cases h1 : n > 1 <;>
    by_cases hs : scanHeadings (querySelectorAll isHeading d) 0 <;>
    by_cases hst : (querySelectorAll hasStyleAttr d).length > 10 <;>
    simp [checkStructure, hn, h0, h1, hs, hst,
      missingH1Issue, multipleH1Issue, skippedHeadingIssue, inlineStyleIssue]

/-- C8: checkStructure counts elements carrying a style attribute (any value,
the empty value included); exactly 10 such elements yield no inline-style
issue while more than 10 yield exactly one info issue whose description
interpolates the count. -/
theorem C8_inline_style_density :
    (∀ d : Doc,
      let n := (querySelectorAll hasStyleAttr d).length
      (checkStructure d).filter (fun i => i.title == "Heavy use of Inline Styles")
        = if n > 10 then [inlineStyleIssue n] else [])
    ∧ countTitled "Heavy use of Inline Styles"
        (checkStructure (List.replicate 10 (Node.elem "div" [("style", "")] []))) = 0
    ∧ (checkStructure (List.replicate 11 (Node.elem "div" [("style", "")] []))).filter
        (fun i => i.title == "Heavy use of Inline Styles") = [inlineStyleIssue 11]
    ∧ (inlineStyleIssue 11).description = "Found 11 elements with inline \x27style\x27 attributes." := by
  refine ⟨fun d => ?_, by rfl, by rfl, by rfl⟩
  intro n
  have hn : (querySelectorAll hasStyleAttr d).length = n := rfl
  by_cases h0 : (querySelectorAll (isTag "h1") d).length = 0 <;>
  by_cases h1 : (querySelectorAll (isTag "h1") d).length > 1 <;>
  by_cases hs : scanHeadings (querySelectorAll isHeading d) 0 <;>
  by_cases hst : n > 10 <;>
  simp [checkStructure, hn, h0, h1, hs, hst,
    missingH1Issue, multipleH1Issue, skippedHeadingIssue, inlineStyleIssue]

theorem jsOr_empty (s : String) : jsOr s "" = s := by
  unfold jsOr
  split <;> simp_all

/-- C2: if no title element exists checkSEO emits exactly one missing-title
error and no length warning; otherwise, with L the length of the decoded,
trimmed title text, L < 10 yields exactly one Title too short warning whose
description interpolates L, L > 70 yields exactly one Title too long
warning, and L in [10,70] yields no title-related issue. -/
theorem C2_title_trichotomy :
    ∀ d : Doc,
      match querySelector (isTag "title") d with
      | none =>
          (checkSEO d).filter (fun i => i.title == "Missing <title> tag") = [missingTitleIssue]
          ∧ (checkSEO d).filter (fun i => i.title == "Title too short") = []
          ∧ (checkSEO d).filter (fun i => i.title == "Title too long") = []
      | some t =>
          let L := (jsTrim t.textContent).length
          (checkSEO d).filter (fun i => i.title == "Missing <title> tag") = []
          ∧ ((checkSEO d).filter (fun i => i.title == "Title too short")
              = if L < 10 then [titleTooShortIssue L] else [])
          ∧ ((checkSEO d).filter (fun i => i.title == "Title too long")
              = if 70 < L then [titleTooLongIssue L] else [])
          ∧ (titleTooShortIssue L).description = s!"Title is only {L} characters long."
          ∧ (titleTooLongIssue L).description = s!"Title is {L} characters long." := by
  intro d
  rcases ht : querySelector (isTag "title") d with _ | t <;> simp only [ht]
  · by_cases hd : (querySelector (isMetaNamed "description") d).isNone <;>
    by_cases hv : (querySelector (isMetaNamed "viewport") d).isNone <;>
    simp [checkSEO, ht, hd, hv, missingTitleIssue, titleTooShortIssue, titleTooLongIssue,
      missingDescriptionIssue, missingViewportIssue]
  · by_cases hd : (querySelector (isMetaNamed "description") d).isNone <;>
    by_cases hv : (querySelector (isMetaNamed "viewport") d).isNone <;>
    by_cases hshort : (jsTrim (Node.textContent t)).length < 10 <;>
    by_cases hlong : 70 < (jsTrim (Node.textContent t)).length <;>
    simp [checkSEO, ht, hd, hv, hshort, hlong, jsOr_empty, missingTitleIssue,
      titleTooShortIssue, titleTooLongIssue, missingDescriptionIssue, missingViewportIssue] <;>
    omega


/-- Three image elements: one with an empty alt (still present), two without
any alt attribute. -/
def docThreeImgs : Doc :=
  [.elem "img" [("alt", "")] [], .elem "img" [] [], .elem "img" [("src", "x.png")] []]

/-- C5: checkAccessibility counts img elements lacking an alt attribute
(presence only, an empty alt counts as present); a positive count yields
exactly one error whose description interpolates it, zero yields no
alt-text issue; 3 imgs with 2 lacking alt yield one error mentioning 2. -/
theorem C5_image_alt_coverage :
    (∀ d : Doc,
      (checkAccessibility d).filter (fun i => i.title == "Images missing Alt text")
        = if ((querySelectorAll (isTag "img") d).filter (fun img => !hasAttr img "alt")).length > 0
          then [imagesMissingAltIssue
            ((querySelectorAll (isTag "img") d).filter (fun img => !hasAttr img "alt")).length]
          else [])
    ∧ (checkAccessibility docThreeImgs).filter (fun i => i.title == "Images missing Alt text")
        = [imagesMissingAltIssue 2]
    ∧ (imagesMissingAltIssue 2).description = "Found 2 <img> tag(s) without an alt attribute." := by
  refine ⟨fun d => ?_, by rfl, by rfl⟩
  simp only [checkAccessibility]
  split_ifs <;> rfl

/-- An anchor element with the given visible text. -/
def aEl (s : String) : Node := .elem "a" [] [.text s]

/-- One generic link (mixed case, trailing space) and one non-generic one. -/
def docTwoLinks : Doc := [aEl "Click here ", aEl "click here now"]

/-- C6: checkAccessibility normalizes every a element's visible text by
trimming and lowercasing and counts exact matches against the fixed generic
set; a positive count yields exactly one warning interpolating the count;
"Click here " counts while "click here now" does not. -/
theorem C6_generic_link_text :
    (∀ d : Doc,
      (checkAccessibility d).filter (fun i => i.title == "Non-descriptive Link Text")
        = if ((querySelectorAll (isTag "a") d).filter
              (fun l => genericTerms.contains (jsToLower (jsTrim l.textContent)))).length > 0
          then [genericLinkTextIssue ((querySelectorAll (isTag "a") d).filter
              (fun l => genericTerms.contains (jsToLower (jsTrim l.textContent)))).length]
          else [])
    ∧ (checkAccessibility docTwoLinks).filter (fun i => i.title == "Non-descriptive Link Text")
        = [genericLinkTextIssue 1]
    ∧ genericTerms.contains (jsToLower (jsTrim "Click here ")) = true
    ∧ genericTerms.contains (jsToLower (jsTrim "click here now")) = false := by
  refine ⟨fun d => ?_, by rfl, by rfl, by rfl⟩
  simp only [checkAccessibility]
  split_ifs <;> rfl

/-- A document without any head section but with a src script in the body. -/
def docNoHead : Doc :=
  [.elem "html" [] [.elem "body" [] [.elem "script" [("src", "a.js")] []]]]

/-- A document whose only src script sits in the body, not the head. -/
def docBodyScript : Doc :=
  [.elem "html" [] [.elem "head" [] [],
    .elem "body" [] [.elem "script" [("src", "a.js")] []]]]

/-- C7: checkPerformance counts, among the head's descendants only, script
elements with a src attribute lacking both async and defer; a positive
count yields exactly one warning interpolating it; a document with no head
yields zero matches and no issue rather than an error. -/
theorem C7_render_blocking_scripts :
    (∀ d : Doc,
      (checkPerformance d).filter (fun i => i.title == "Render-blocking Scripts")
        = if ((match headOf d with
                | some h => collect isSrcScript (childrenOf h)
                | none => []).filter
              (fun s => !hasAttr s "async" && !hasAttr s "defer")).length > 0
          then [renderBlockingIssue ((match headOf d with
                | some h => collect isSrcScript (childrenOf h)
                | none => []).filter
              (fun s => !hasAttr s "async" && !hasAttr s "defer")).length]
          else [])
    ∧ (∀ d : Doc, headOf d = none →
        (checkPerformance d).filter (fun i => i.title == "Render-blocking Scripts") = [])
    ∧ (checkPerformance docNoHead).filter (fun i => i.title == "Render-blocking Scripts") = []
    ∧ (checkPerformance docBodyScript).filter (fun i => i.title == "Render-blocking Scripts") = [] := by
  have huniv : ∀ d : Doc,
      (checkPerformance d).filter (fun i => i.title == "Render-blocking Scripts")
        = if ((match headOf d with
                | some h => collect isSrcScript (childrenOf h)
                | none => []).filter
              (fun s => !hasAttr s "async" && !hasAttr s "defer")).length > 0
          then [renderBlockingIssue ((match headOf d with
                | some h => collect isSrcScript (childrenOf h)
                | none => []).filter
              (fun s => !hasAttr s "async" && !hasAttr s "defer")).length]
          else [] := by
    intro d
    simp only [checkPerformance]
    split_ifs <;> rfl
  refine ⟨huniv, fun d hd => ?_, by rfl, by rfl⟩
  rw [huniv d, hd]
  rfl

theorem checkSEO_categories (d : Doc) :
    (checkSEO d).map Issue.category = List.replicate (checkSEO d).length "SEO" := by
  rcases ht : querySelector (isTag "title") d with _ | t <;>
    simp only [checkSEO, ht] <;>
    split_ifs <;> rfl

theorem checkAccessibility_categories (d : Doc) :
    (checkAccessibility d).map Issue.category
      = List.replicate (checkAccessibility d).length "Accessibility" := by
  simp only [checkAccessibility]
  split_ifs <;> rfl

theorem checkStructure_categories (d : Doc) :
    (checkStructure d).map Issue.category
      = List.replicate (checkStructure d).length "Structure" := by
  simp only [checkStructure]
  split_ifs <;> rfl

theorem checkPerformance_categories (d : Doc) :
    (checkPerformance d).map Issue.category
      = List.replicate (checkPerformance d).length "Performance" := by
  simp only [checkPerformance]
  split_ifs <;> rfl

/-- C3: the overall result is the concatenation of the four group outputs in
SEO, Accessibility, Structure, Performance order, each group emits only
issues of its own category, so the categories of the result form four
contiguous blocks in that fixed order with no interleaving. -/
theorem C3_group_ordering :
    ∀ d : Doc,
      analyze d = checkSEO d ++ checkAccessibility d ++ checkStructure d ++ checkPerformance d
      ∧ (analyze d).map Issue.category
          = List.replicate (checkSEO d).length "SEO"
            ++ List.replicate (checkAccessibility d).length "Accessibility"
            ++ List.replicate (checkStructure d).length "Structure"
            ++ List.replicate (checkPerformance d).length "Performance" := by
  intro d
  refine ⟨rfl, ?_⟩
  simp only [analyze, List.map_append]
  rw [checkSEO_categories d, checkAccessibility_categories d,
      checkStructure_categories d, checkPerformance_categories d]

/-- C9: the minimal document html > head, body yields exactly the five
issues missing title, missing meta description, missing viewport (SEO
errors), no semantic landmarks (Accessibility info) and missing H1
(Structure error), in evaluation order, and nothing else. -/
theorem C9_minimal_document :
    analyze docMinimal
      = [missingTitleIssue, missingDescriptionIssue, missingViewportIssue,
         noLandmarksIssue, missingH1Issue]
    ∧ (analyze docMinimal).length = 5 := ⟨rfl, rfl⟩

/-- Witness for C7: the no-head clause instantiated at a concrete headless
document containing a src script in the body. -/
theorem C7_witness :
    (checkPerformance docNoHead).filter (fun i => i.title == "Render-blocking Scripts") = [] :=
  C7_render_blocking_scripts.2.1 docNoHead (by rfl)

/-- A canonical link element: link rel=canonical with an href, no children. -/
def canonicalLink (href : String) : Node :=
  .elem "link" [("rel", "canonical"), ("href", href)] []

/-- Insert a node at index i of a list (appended at the end past the length). -/
def insertAt : Nat → Node → List Node → List Node
  | 0, x, l => x :: l
  | _ + 1, x, [] => [x]
  | i + 1, x, n :: l => n :: insertAt i x l

/-- Does the forest contain a head element? -/
def containsHead (l : List Node) : Bool := !(collect (isTag "head") l).isEmpty

mutual

/-- Insert x at child index i of the subtree's first head element. -/
def insHeadNode (x : Node) (i : Nat) : Node → Node
  | .text s => .text s
  | .elem t a c =>
      if t == "head" then .elem t a (insertAt i x c)
      else .elem t a (insHead x i c)

/-- Insert x at child index i of the forest's first head element in preorder
(the forest is returned unchanged when it has no head element). -/
def insHead (x : Node) (i : Nat) : List Node → List Node
  | [] => []
  | n :: rest =>
      if containsHead [n] then insHeadNode x i n :: rest
      else n :: insHead x i rest

end

/-- The right forest differs from the left only by extra inserted copies of
the node x, at arbitrary element-child positions and arbitrary depth. -/
inductive LSim (x : Node) : List Node → List Node → Prop where
  | nil : LSim x [] []
  | text (s : String) {l l' : List Node} : LSim x l l' → LSim x (.text s :: l) (.text s :: l')
  | elem (t : String) (a : List (String × String)) {cs cs' l l' : List Node} :
      LSim x cs cs' → LSim x l l' → LSim x (.elem t a cs :: l) (.elem t a cs' :: l')
  | ins {l l' : List Node} : LSim x l l' → LSim x l (x :: l')

mutual

theorem lsim_cons (x : Node) :
    (n : Node) → (l l' : List Node) → LSim x l l' → LSim x (n :: l) (n :: l')
  | .text s, _, _, h => LSim.text s h
  | .elem t a c, _, _, h => LSim.elem t a (lsim_refl x c) h

theorem lsim_refl (x : Node) : (l : List Node) → LSim x l l
  | [] => LSim.nil
  | n :: rest => lsim_cons x n rest rest (lsim_refl x rest)

end

theorem lsim_insertAt (x : Node) : (i : Nat) → (l : List Node) → LSim x l (insertAt i x l)
  | 0, l => LSim.ins (lsim_refl x l)
  | _ + 1, [] => LSim.ins LSim.nil
  | i + 1, n :: l => lsim_cons x n l (insertAt i x l) (lsim_insertAt x i l)

mutual

theorem lsim_insHeadNode (x : Node) (i : Nat) :
    (n : Node) → (l l' : List Node) → LSim x l l' → LSim x (n :: l) (insHeadNode x i n :: l')
  | .text s, _, _, h => LSim.text s h
  | .elem t a c, _, _, h => by
      by_cases ht : t == "head"
      · simpa [insHeadNode, ht] using LSim.elem t a (lsim_insertAt x i c) h
      · simpa [insHeadNode, ht] using LSim.elem t a (lsim_insHead x i c) h

theorem lsim_insHead (x : Node) (i : Nat) : (l : List Node) → LSim x l (insHead x i l)
  | [] => LSim.nil
  | n :: rest => by
      by_cases hc : containsHead [n]
      · simpa [insHead, hc] using lsim_insHeadNode x i n rest rest (lsim_refl x rest)
      · simpa [insHead, hc] using lsim_cons x n rest (insHead x i rest) (lsim_insHead x i rest)

end

/-- Node-level correspondence induced by LSim: equal text, or equal tag and
attributes with LSim-related children. -/
def NRel (x : Node) : Node → Node → Prop
  | .text s, .text s' => s = s'
  | .elem t a cs, .elem t' a' cs' => t = t' ∧ a = a' ∧ LSim x cs cs'
  | _, _ => False

theorem nrel_tag {x : Node} {n n' : Node} (h : NRel x n n') : tagOf n' = tagOf n := by
  cases n <;> cases n' <;> simp_all [NRel, tagOf]

theorem nrel_attrs {x : Node} {n n' : Node} (h : NRel x n n') : attrsOf n' = attrsOf n := by
  cases n <;> cases n' <;> simp_all [NRel, attrsOf]

theorem nrel_children {x : Node} {n n' : Node} (h : NRel x n n') :
    LSim x (childrenOf n) (childrenOf n') := by
  cases n with
  | text s =>
      cases n' with
      | text s' => exact LSim.nil
      | elem t' a' cs' => exact absurd h (by simp [NRel])
  | elem t a cs =>
      cases n' with
      | text s' => exact absurd h (by simp [NRel])
      | elem t' a' cs' => exact h.2.2

theorem nrel_pred {x : Node} {n n' : Node} (h : NRel x n n') {p : Node → Bool}
    (hp : ∀ (t : String) (a : List (String × String)) (cs cs' : List Node),
      p (.elem t a cs') = p (.elem t a cs)) : p n' = p n := by
  cases n with
  | text s =>
      cases n' with
      | text s' => simp only [NRel] at h; rw [h]
      | elem t' a' cs' => exact absurd h (by simp [NRel])
  | elem t a cs =>
      cases n' with
      | text s' => exact absurd h (by simp [NRel])
      | elem t' a' cs' =>
          obtain ⟨ht, ha, _⟩ := h
          subst ht; subst ha
          exact hp t a cs cs'

theorem forall2_append {α β : Type} {R : α → β → Prop} {a b c d : List _}
    (h1 : List.Forall₂ R a b) (h2 : List.Forall₂ R c d) :
    List.Forall₂ R (a ++ c) (b ++ d) := by
  induction h1 with
  | nil => simpa using h2
  | cons hr _ ih => exact List.Forall₂.cons hr ih

theorem forall2_head_isSome {α β : Type} {R : α → β → Prop} {l : List α} {l' : List β}
    (h : List.Forall₂ R l l') : (l'.head?).isSome = (l.head?).isSome := by
  cases h <;> rfl

theorem forall2_head_isNone {α β : Type} {R : α → β → Prop} {l : List α} {l' : List β}
    (h : List.Forall₂ R l l') : (l'.head?).isNone = (l.head?).isNone := by
  cases h <;> rfl

theorem forall2_head_rel {α β : Type} {R : α → β → Prop} {l : List α} {l' : List β}
    (h : List.Forall₂ R l l') :
    ∀ {a : α}, l.head? = some a → ∃ b, l'.head? = some b ∧ R a b := by
  cases h with
  | nil => intro a ha; simp at ha
  | cons hr _ =>
      intro a ha
      simp only [List.head?_cons, Option.some.injEq] at ha
      subst ha
      exact ⟨_, rfl, hr⟩

theorem forall2_filter_length {α β : Type} {R : α → β → Prop} {q : α → Bool} {q' : β → Bool}
    (hq : ∀ a b, R a b → q' b = q a) :
    ∀ {l : List α} {l' : List β}, List.Forall₂ R l l' →
      (l'.filter q').length = (l.filter q).length := by
  intro l l' h
  induction h with
  | nil => rfl
  | cons hr _ ih =>
      simp only [List.filter_cons]
      rw [hq _ _ hr]
      split <;> simp [ih]

theorem forall2_map_eq {α β γ : Type} {R : α → β → Prop} {f : α → γ} {g : β → γ}
    (hfg : ∀ a b, R a b → g b = f a) :
    ∀ {l : List α} {l' : List β}, List.Forall₂ R l l' → l'.map g = l.map f := by
  intro l l' h
  induction h with
  | nil => rfl
  | cons hr _ ih => simp only [List.map_cons, hfg _ _ hr, ih]

/-- Collecting with a predicate that ignores children and rejects x relates
the two collections pointwise. -/
theorem lsim_collect {x : Node} (p : Node → Bool) (hx : collectNode p x = [])
    (hp : ∀ (t : String) (a : List (String × String)) (cs cs' : List Node),
      p (.elem t a cs') = p (.elem t a cs))
    {l l' : List Node} (h : LSim x l l') :
    List.Forall₂ (NRel x) (collect p l) (collect p l') := by
  induction h with
  | nil => exact List.Forall₂.nil
  | text s h ih => simpa [collect, collectNode] using ih
  | @elem t a cs cs' l l' hcs hl ihcs ihl =>
      simp only [collect, collectNode]
      rw [hp t a cs cs']
      by_cases hpe : p (.elem t a cs)
      · simp only [hpe, if_true, List.cons_append, List.nil_append]
        exact List.Forall₂.cons ⟨rfl, rfl, hcs⟩ (forall2_append ihcs ihl)
      · simp only [hpe, if_false, List.nil_append]
        exact forall2_append ihcs ihl
  | @ins l l' hrec ih => simpa [collect, hx] using ih

theorem lsim_textContent {x : Node} (hx : textContentN x = "") :
    ∀ {l l' : List Node}, LSim x l l' → textContentL l' = textContentL l := by
  intro l l' h
  induction h with
  | nil => rfl
  | text s h ih => simp only [textContentL, textContentN, ih]
  | elem t a hcs hl ihcs ihl => simp only [textContentL, textContentN, ihcs, ihl]
  | ins h ih => simp only [textContentL, hx, ih, String.empty_append]

theorem nrel_textContent {x : Node} (hx : textContentN x = "") {n n' : Node}
    (h : NRel x n n') : Node.textContent n' = Node.textContent n := by
  cases n with
  | text s =>
      cases n' with
      | text s' => simp only [NRel] at h; rw [h]
      | elem t' a' cs' => exact absurd h (by simp [NRel])
  | elem t a cs =>
      cases n' with
      | text s' => exact absurd h (by simp [NRel])
      | elem t' a' cs' =>
          obtain ⟨ht, ha, hcs⟩ := h
          simp only [Node.textContent, textContentN]
          exact lsim_textContent hx hcs

theorem forall2_head_none {α β : Type} {R : α → β → Prop} {l : List α} {l' : List β}
    (h : List.Forall₂ R l l') (hn : l.head? = none) : l'.head? = none := by
  have := forall2_head_isNone h
  rw [hn] at this
  simpa [Option.isNone_iff_eq_none] using this

theorem checkSEO_lsim {href : String} {d d' : Doc} (h : LSim (canonicalLink href) d d') :
    checkSEO d' = checkSEO d := by
  have htl := lsim_collect (x := canonicalLink href) (isTag "title") rfl (fun _ _ _ _ => rfl) h
  have hde := lsim_collect (x := canonicalLink href) (isMetaNamed "description") rfl
    (fun _ _ _ _ => rfl) h
  have hvp := lsim_collect (x := canonicalLink href) (isMetaNamed "viewport") rfl
    (fun _ _ _ _ => rfl) h
  have hdeN := forall2_head_isNone hde
  have hvpN := forall2_head_isNone hvp
  rcases ht : (collect (isTag "title") d).head? with _ | t
  · have ht' : (collect (isTag "title") d').head? = none := forall2_head_none htl ht
    simp only [checkSEO, querySelector, ht, ht', hdeN, hvpN]
  · obtain ⟨t', ht', hrel⟩ := forall2_head_rel htl ht
    have htc := nrel_textContent (x := canonicalLink href) rfl hrel
    simp only [checkSEO, querySelector, ht, ht', hdeN, hvpN, htc]

theorem checkAccessibility_lsim {href : String} {d d' : Doc}
    (h : LSim (canonicalLink href) d d') :
    checkAccessibility d' = checkAccessibility d := by
  have him := lsim_collect (x := canonicalLink href) (isTag "img") rfl (fun _ _ _ _ => rfl) h
  have hln := lsim_collect (x := canonicalLink href) (isTag "a") rfl (fun _ _ _ _ => rfl) h
  have h1 : ((querySelectorAll (isTag "img") d').filter (fun img => !hasAttr img "alt")).length
      = ((querySelectorAll (isTag "img") d).filter (fun img => !hasAttr img "alt")).length :=
    forall2_filter_length
      (fun a b hr => by
        have ha := nrel_attrs hr
        simp only [hasAttr, attrOf, ha]) him
  have h2 : ((querySelectorAll (isTag "a") d').filter
        (fun l => genericTerms.contains (jsToLower (jsTrim l.textContent)))).length
      = ((querySelectorAll (isTag "a") d).filter
        (fun l => genericTerms.contains (jsToLower (jsTrim l.textContent)))).length :=
    forall2_filter_length
      (fun a b hr => by
        rw [nrel_textContent (x := canonicalLink href) rfl hr]) hln
  have hq : ∀ t : String, collectNode (isTag t) (canonicalLink href) = [] →
      ((querySelector (isTag t) d').isSome = (querySelector (isTag t) d).isSome) := by
    intro t hxt
    exact forall2_head_isSome
      (lsim_collect (x := canonicalLink href) (isTag t) hxt (fun _ _ _ _ => rfl) h)
  have hfl : List.filter (fun t => (querySelector (isTag t) d').isSome) landmarkTags
      = List.filter (fun t => (querySelector (isTag t) d).isSome) landmarkTags := by
    apply List.filter_congr
    intro t htmem
    fin_cases htmem <;> exact hq _ rfl
  simp only [checkAccessibility]
  rw [h1, h2, hfl]

theorem checkStructure_lsim {href : String} {d d' : Doc}
    (h : LSim (canonicalLink href) d d') :
    checkStructure d' = checkStructure d := by
  have hh1 : (querySelectorAll (isTag "h1") d').length
      = (querySelectorAll (isTag "h1") d).length :=
    (lsim_collect (x := canonicalLink href) (isTag "h1") rfl (fun _ _ _ _ => rfl) h).length_eq.symm
  have hmap : (querySelectorAll isHeading d').map headingLevel
      = (querySelectorAll isHeading d).map headingLevel :=
    forall2_map_eq (fun a b hr => by simp only [headingLevel, nrel_tag hr])
      (lsim_collect (x := canonicalLink href) isHeading rfl (fun _ _ _ _ => rfl) h)
  have hscan : scanHeadings (querySelectorAll isHeading d') 0
      = scanHeadings (querySelectorAll isHeading d) 0 := by
    have e1 := scanHeadings_iff_not_chain (querySelectorAll isHeading d') 0
    have e2 := scanHeadings_iff_not_chain (querySelectorAll isHeading d) 0
    rw [hmap] at e1
    cases hd1 : scanHeadings (querySelectorAll isHeading d') 0 <;>
    cases hd2 : scanHeadings (querySelectorAll isHeading d) 0 <;>
    simp_all
  have hsty : (querySelectorAll hasStyleAttr d').length
      = (querySelectorAll hasStyleAttr d).length :=
    (lsim_collect (x := canonicalLink href) hasStyleAttr rfl (fun _ _ _ _ => rfl) h).length_eq.symm
  simp only [checkStructure]
  rw [hh1, hscan, hsty]

theorem checkPerformance_lsim {href : String} {d d' : Doc}
    (h : LSim (canonicalLink href) d d') :
    checkPerformance d' = checkPerformance d := by
  have himg : (querySelectorAll (isTag "img") d').length
      = (querySelectorAll (isTag "img") d).length :=
    (lsim_collect (x := canonicalLink href) (isTag "img") rfl (fun _ _ _ _ => rfl) h).length_eq.symm
  have hinl : ((querySelectorAll isInlineScript d').filter
        (fun s => s.textContent.length > 2000)).length
      = ((querySelectorAll isInlineScript d).filter
        (fun s => s.textContent.length > 2000)).length :=
    forall2_filter_length
      (fun a b hr => by
        rw [nrel_textContent (x := canonicalLink href) rfl hr])
      (lsim_collect (x := canonicalLink href) isInlineScript rfl (fun _ _ _ _ => rfl) h)
  have hhead := lsim_collect (x := canonicalLink href) (isTag "head") rfl (fun _ _ _ _ => rfl) h
  have hblock : ((match headOf d' with
        | some h2 => collect isSrcScript (childrenOf h2)
        | none => []).filter (fun s => !hasAttr s "async" && !hasAttr s "defer")).length
      = ((match headOf d with
        | some h2 => collect isSrcScript (childrenOf h2)
        | none => []).filter (fun s => !hasAttr s "async" && !hasAttr s "defer")).length := by
    rcases hh : (collect (isTag "head") d).head? with _ | hd1
    · have hh' : (collect (isTag "head") d').head? = none := forall2_head_none hhead hh
      simp only [headOf, querySelector, hh, hh']
    · obtain ⟨hd2, hh', hrel⟩ := forall2_head_rel hhead hh
      simp only [headOf, querySelector, hh, hh']
      exact forall2_filter_length
        (fun a b hr => by
          have ha := nrel_attrs hr
          simp only [hasAttr, attrOf, ha])
        (lsim_collect (x := canonicalLink href) isSrcScript rfl (fun _ _ _ _ => rfl)
          (nrel_children hrel))
  simp only [checkPerformance]
  rw [himg, hinl, hblock]

theorem analyze_lsim {href : String} {d d' : Doc} (h : LSim (canonicalLink href) d d') :
    analyze d' = analyze d := by
  simp only [analyze, checkSEO_lsim h, checkAccessibility_lsim h,
    checkStructure_lsim h, checkPerformance_lsim h]

/-- C10: the canonical link[rel=canonical] lookup produces no issue, so two
documents differing only by canonical link elements (LSim-related, i.e. the
second has extra canonical links inserted at arbitrary positions; in
particular insertion at any index of the head, with any href) evaluate to
identical checkSEO output and identical full issue lists. -/
theorem C10_canonical_noninterference :
    (∀ (href : String) (d d' : Doc), LSim (canonicalLink href) d d' →
      checkSEO d' = checkSEO d ∧ analyze d' = analyze d)
    ∧ (∀ (href : String) (i : Nat) (d : Doc),
        analyze (insHead (canonicalLink href) i d) = analyze d)
    ∧ (∀ (href href2 : String) (i j : Nat) (d : Doc),
        analyze (insHead (canonicalLink href) i d)
          = analyze (insHead (canonicalLink href2) j d)) := by
  refine ⟨fun href d d' h => ⟨checkSEO_lsim h, analyze_lsim h⟩,
    fun href i d => analyze_lsim (lsim_insHead (canonicalLink href) i d),
    fun href href2 i j d => ?_⟩
  rw [analyze_lsim (lsim_insHead (canonicalLink href) i d),
    analyze_lsim (lsim_insHead (canonicalLink href2) j d)]

/-- Witness for C10: the minimal document against the same document with a
canonical link inserted in its head, related by an explicit derivation. -/
theorem C10_witness :
    checkSEO [Node.elem "html" [] [Node.elem "head" [] [canonicalLink "x"],
        Node.elem "body" [] []]]
      = checkSEO docMinimal ∧
    analyze [Node.elem "html" [] [Node.elem "head" [] [canonicalLink "x"],
        Node.elem "body" [] []]]
      = analyze docMinimal :=
  C10_canonical_noninterference.1 "x" docMinimal
    [Node.elem "html" [] [Node.elem "head" [] [canonicalLink "x"], Node.elem "body" [] []]]
    (LSim.elem "html" []
      (LSim.elem "head" [] (LSim.ins LSim.nil)
        (LSim.elem "body" [] LSim.nil LSim.nil))
      LSim.nil)
